import Mathlib

/-!
Verification of the Distortion Mapping and Sequence Resampling Engine
(src/deadline_plugin/OpenCVDistortion/distortion.py) against its
natural-language specification.

The engine is embedded shallowly: JSON documents are an explicit value
type, Python numeric coercion becomes a function into `Except`,
`resolve_filename` is translated token for token, and `main` becomes a
pure function from a calibration document, an abstract file system and
the CLI arguments to a result status together with the ordered trace of
its protocol-relevant effects (reads, map building, directory creation,
writes, `Error:` lines, `Progress:` percentages, the terminal done
signal).  Numeric work is done in `ℚ`; the remap geometry itself is an
OpenCV-internal call and only the data handed to it (lens model choice,
coefficient vector, direction) is recorded in the trace.
-/

/-- JSON values as produced by `json.load`. -/
inductive JsonVal where
  | num (q : ℚ)
  | str (s : String)
  | bool (b : Bool)
  | null
  | arr (elems : List JsonVal)
  | obj (fields : List (String × JsonVal))

/-- A parsed JSON object: the calibration document. -/
abbrev Doc := List (String × JsonVal)

/-- Key lookup in a JSON object (`data[key]` / `data.get(key)`). -/
def jlookup : Doc → String → Option JsonVal
  | [], _ => none
  | (k, v) :: rest, key => if k == key then some v else jlookup rest key

/-- Numeric value of a decimal digit character. -/
def digitVal (c : Char) : Nat := c.toNat - 48

/-- Digit characters to the natural number they denote (most significant first). -/
def charsToNat (l : List Char) : Nat := l.foldl (fun a c => 10 * a + digitVal c) 0

/-- Exponent suffix of a Python float literal (`e±NN`); `none` input chars mean
no exponent.  Returns the scaled value, or `none` on a malformed suffix. -/
def parseExpPart (base : ℚ) : List Char → Option ℚ
  | [] => some base
  | e :: rest =>
    if e == 'e' || e == 'E' then
      let sd : Bool × List Char :=
        match rest with
        | '+' :: r => (true, r)
        | '-' :: r => (false, r)
        | r => (true, r)
      if sd.2.isEmpty || !(sd.2.all Char.isDigit) then none
      else
        let k := charsToNat sd.2
        some (if sd.1 then base * 10 ^ k else base / 10 ^ k)
    else none

/-- Unsigned decimal part of a Python float literal. -/
def parseUnsignedDec (cs : List Char) : Option ℚ :=
  let intPart := cs.takeWhile Char.isDigit
  let rest := cs.dropWhile Char.isDigit
  match rest with
  | '.' :: rest2 =>
    let fracPart := rest2.takeWhile Char.isDigit
    let rest3 := rest2.dropWhile Char.isDigit
    if intPart.length + fracPart.length == 0 then none
    else parseExpPart ((charsToNat intPart : ℚ) + (charsToNat fracPart : ℚ) / (10 : ℚ) ^ fracPart.length) rest3
  | _ =>
    if intPart.length == 0 then none
    else parseExpPart (charsToNat intPart : ℚ) rest

/-- Optional sign of a Python float literal. -/
def parseSigned : List Char → Option ℚ
  | '+' :: cs => parseUnsignedDec cs
  | '-' :: cs => (parseUnsignedDec cs).map Neg.neg
  | cs => parseUnsignedDec cs

/-- Model of Python `float(s)` on a string: surrounding whitespace stripped,
optional sign, decimal digits with optional fraction and exponent.
`"inf"`/`"nan"` are treated as unparseable (no claim depends on them). -/
def parseFloat (s : String) : Option ℚ :=
  let cs := s.data.dropWhile (fun c => c == ' ')
  parseSigned ((cs.reverse.dropWhile (fun c => c == ' ')).reverse)

/-- The Python exception classes that matter to the extraction try-block. -/
inductive PyErr where
  | keyError
  | valueError
  | typeError
deriving DecidableEq

/-- Model of Python `float(v)` on a JSON value: numbers and booleans coerce,
strings are parsed (`ValueError` on failure), and every other type raises
`TypeError`. -/
def pyFloat : JsonVal → Except PyErr ℚ
  | .num q => .ok q
  | .bool b => .ok (if b then 1 else 0)
  | .str s =>
    match parseFloat s with
    | some q => .ok q
    | none => .error .valueError
  | .null => .error .typeError
  | .arr _ => .error .typeError
  | .obj _ => .error .typeError

/-- Model of Python truthiness of a JSON value (`if is_fisheye:`). -/
def pyTruthy : JsonVal → Bool
  | .num q => decide (q ≠ 0)
  | .str s => !s.isEmpty
  | .bool b => b
  | .null => false
  | .arr l => !l.isEmpty
  | .obj l => !l.isEmpty

/-- Model of Python `int()` applied to a float: truncation toward zero. -/
def pyTrunc (q : ℚ) : Int := if 0 ≤ q then ⌊q⌋ else ⌈q⌉

/-- The character for a decimal digit `d < 10`. -/
def digitChar (d : Nat) : Char := Char.ofNat (48 + d)

/-- Fuelled big-endian decimal digits of a natural number; the fuel only
bounds the number of division steps and is always sufficient below. -/
def natDigitsAux : Nat → Nat → List Char → List Char
  | 0, _, acc => acc
  | fuel + 1, n, acc =>
    if n < 10 then digitChar n :: acc
    else natDigitsAux fuel (n / 10) (digitChar (n % 10) :: acc)

/-- Decimal digit characters of a natural number, as Python `str`/`format`
would print them. -/
def natDigits (n : Nat) : List Char := natDigitsAux (n + 1) n []

/-- Decimal rendering of a natural number. -/
def natStr (n : Nat) : String := String.mk (natDigits n)

/-- Decimal rendering of an integer. -/
def intStr (n : Int) : String := if n < 0 then "-" ++ natStr n.natAbs else natStr n.toNat

/-- The digits of `n` zero-padded on the left to at least `width` characters. -/
def padNat (width : Nat) (n : Nat) : List Char :=
  List.replicate (width - (natDigits n).length) '0' ++ natDigits n

/-- Model of Python `"{:0Nd}".format(frame)`: zero-pad to total width `width`,
the sign (if any) counting toward the width. -/
def padInt (width : Nat) (frame : Int) : List Char :=
  if frame < 0 then '-' :: padNat (width - 1) frame.natAbs else padNat width frame.toNat

/-- Model of `re.search(r'(#+)', pattern)`: the first maximal run of
consecutive hash marks, if any. -/
def firstHashRun : List Char → Option (List Char)
  | [] => none
  | c :: cs =>
    if c == '#' then some ('#' :: cs.takeWhile (fun x => x == '#'))
    else firstHashRun cs

/-- Fuelled core of Python `str.replace(old, new)`: every non-overlapping
occurrence, scanning left to right.  Each step consumes at least one
character, so fuel `s.length` is always sufficient. -/
def pyReplaceAux (old new : List Char) : Nat → List Char → List Char
  | _, [] => []
  | 0, s => s
  | fuel + 1, c :: cs =>
    if old ≠ [] ∧ old.isPrefixOf (c :: cs) then
      new ++ pyReplaceAux old new fuel (cs.drop (old.length - 1))
    else c :: pyReplaceAux old new fuel cs

/-- Model of Python `s.replace(old, new)` for nonempty `old` (the only way
the engine calls it; for empty `old` this model returns `s` unchanged,
unlike Python). -/
def pyReplace (old new s : List Char) : List Char := pyReplaceAux old new s.length s

/-- Whether `sub` occurs as a contiguous substring (`"%0" in pattern`). -/
def containsSub (sub : List Char) : List Char → Bool
  | [] => sub.isEmpty
  | c :: cs => sub.isPrefixOf (c :: cs) || containsSub sub cs

/-- Greedy decimal width parse used by the printf model. -/
def takeWidth : List Char → Nat → Nat × List Char
  | [], acc => (acc, [])
  | c :: cs, acc => if c.isDigit then takeWidth cs (10 * acc + digitVal c) else (acc, c :: cs)

/-- Fuelled model of Python `pattern % frame`, restricted to the directives
the tool is used with: `%%` escapes and integer conversions `%d` / `%0Nd`
(the caller's branch only fires for `"%0"` patterns, so widths are treated
as zero-padded).  Returns the rendered characters and the number of
conversions consumed; any other directive fails, as does a conversion
count other than one at the top level. -/
def percentFmtAux (frame : Int) : Nat → List Char → Option (List Char × Nat)
  | _, [] => some ([], 0)
  | 0, _ => none
  | fuel + 1, '%' :: '%' :: rest => (percentFmtAux frame fuel rest).map (fun r => ('%' :: r.1, r.2))
  | fuel + 1, '%' :: rest =>
    match takeWidth rest 0 with
    | (width, 'd' :: rest2) =>
      (percentFmtAux frame fuel rest2).map (fun r => (padInt width frame ++ r.1, r.2 + 1))
    | _ => none
  | fuel + 1, c :: cs => (percentFmtAux frame fuel cs).map (fun r => (c :: r.1, r.2))

/-- Model of Python `pattern % frame`, succeeding only when exactly one
integer conversion is present (otherwise Python raises and the caller
falls back). -/
def pyPercentFormat (pattern : String) (frame : Int) : Option String :=
  match percentFmtAux frame pattern.data.length pattern.data with
  | some (out, 1) => some (String.mk out)
  | _ => none

/-- Embedding of `resolve_filename(pattern, frame)`: hash-style padding is
found first (`re.search(r'(#+)')`, format to the run's length, then
`str.replace` of that run text); otherwise printf-style `%0Nd` patterns are
tried with fallback to the literal pattern; otherwise the pattern is
returned unchanged. -/
def resolve_filename (pattern : String) (frame : Int) : String :=
  match firstHashRun pattern.data with
  | some run => String.mk (pyReplace run (padInt run.length frame) pattern.data)
  | none =>
    if containsSub ['%', '0'] pattern.data then
      match pyPercentFormat pattern frame with
      | some out => out
      | none => pattern
    else pattern

/-- Modelled from the spec (§4.4 / claim C3 wording), for comparison with the
code only: replace the FIRST run of consecutive hash marks — and only that
run — with the zero-padded frame number. -/
def specResolveFirstRun (frame : Int) : List Char → List Char
  | [] => []
  | c :: cs =>
    if c == '#' then
      padInt ('#' :: cs.takeWhile (fun x => x == '#')).length frame
        ++ cs.dropWhile (fun x => x == '#')
    else c :: specResolveFirstRun frame cs

/-- Spec-side Frame-Name Resolver (claim C3's reading) on strings. -/
def specResolveHash (pattern : String) (frame : Int) : String :=
  String.mk (specResolveFirstRun frame pattern.data)

/-- Pixel sample formats relevant to the engine's decode/encode policy. -/
inductive Dtype where
  | uint8
  | uint16
  | float16
  | float32
deriving DecidableEq

/-- Decoded image metadata (`temp_img.shape[:2]` and `img.dtype`); the pixel
content never influences the control flow being verified. -/
structure Img where
  h : Nat
  w : Nat
  dtype : Dtype
deriving DecidableEq

/-- State of a path in the abstract file system: absent
(`os.path.exists` false), present but undecodable (`cv2.imread` returns
None), or decodable to an image. -/
inductive FsEntry where
  | missing
  | unreadable
  | image (img : Img)

/-- The camera parameters extracted in step 2 of `main`; `is_fisheye` is
kept as the raw JSON value because the code never validates or coerces it. -/
structure Params where
  fl_x : ℚ
  fl_y : ℚ
  cx : ℚ
  cy : ℚ
  w : Int
  h : Int
  k1 : ℚ
  k2 : ℚ
  k3 : ℚ
  k4 : ℚ
  p1 : ℚ
  p2 : ℚ
  is_fisheye : JsonVal

/-- Model of `float(data[key])`: `KeyError` when absent, then Python float
coercion. -/
def getFloat (doc : Doc) (key : String) : Except PyErr ℚ :=
  match jlookup doc key with
  | none => .error .keyError
  | some v => pyFloat v

/-- Model of `float(data.get(key, 0))`: missing keys default to `0`. -/
def getFloatD (doc : Doc) (key : String) : Except PyErr ℚ :=
  pyFloat ((jlookup doc key).getD (.num 0))

/-- Embedding of the parameter-extraction try-block (step 2 of `main`), in
source order.  `w`/`h` are `int(float(...))`. -/
def extractParams (doc : Doc) : Except PyErr Params := do
  let fl_x ← getFloat doc "fl_x"
  let fl_y ← getFloat doc "fl_y"
  let cx ← getFloat doc "cx"
  let cy ← getFloat doc "cy"
  let wq ← getFloat doc "w"
  let hq ← getFloat doc "h"
  let k1 ← getFloatD doc "k1"
  let k2 ← getFloatD doc "k2"
  let k3 ← getFloatD doc "k3"
  let k4 ← getFloatD doc "k4"
  let p1 ← getFloatD doc "p1"
  let p2 ← getFloatD doc "p2"
  pure { fl_x := fl_x, fl_y := fl_y, cx := cx, cy := cy,
         w := pyTrunc wq, h := pyTrunc hq,
         k1 := k1, k2 := k2, k3 := k3, k4 := k4, p1 := p1, p2 := p2,
         is_fisheye := (jlookup doc "is_fisheye").getD (.bool false) }

/-- Embedding of the intrinsics-rescaling block (step 3 of `main`): on a
resolution mismatch, `fl_x, cx` are scaled by `real_w / w`, `fl_y, cy` by
`real_h / h`, and `(w, h)` are replaced by the actual dimensions. -/
def reconcile (p : Params) (realW realH : Int) : Params :=
  if realW ≠ p.w ∨ realH ≠ p.h then
    let scale_x : ℚ := (realW : ℚ) / (p.w : ℚ)
    let scale_y : ℚ := (realH : ℚ) / (p.h : ℚ)
    { p with fl_x := p.fl_x * scale_x, fl_y := p.fl_y * scale_y,
             cx := p.cx * scale_x, cy := p.cy * scale_y,
             w := realW, h := realH }
  else p

/-- Lowercasing of an ASCII character (`path.lower()`). -/
def lowerChar (c : Char) : Char :=
  if 'A' ≤ c ∧ c ≤ 'Z' then Char.ofNat (c.toNat + 32) else c

/-- Evaluation of `path.lower().endswith('.exr')`. -/
def lowerEndsWithExr (path : String) : Bool :=
  List.isSuffixOf ".exr".data (path.data.map lowerChar)

/-- The two imread flag choices the engine uses. -/
inductive ReadFlag where
  | color
  | unchanged

/-- Read-flag selection: `IMREAD_UNCHANGED` for `.exr`, else `IMREAD_COLOR`. -/
def readFlagsFor (path : String) : ReadFlag :=
  if lowerEndsWithExr path then .unchanged else .color

/-- Decode model for `cv2.imread`: `IMREAD_COLOR` converts to 8-bit samples,
`IMREAD_UNCHANGED` keeps the file's native sample type; the geometry is
unchanged either way. -/
def decodeAs (flag : ReadFlag) (img : Img) : Img :=
  match flag with
  | .color => { img with dtype := .uint8 }
  | .unchanged => img

/-- Model of `os.path.basename` (POSIX): everything after the last slash. -/
def basename (s : String) : String :=
  String.mk ((s.data.reverse.takeWhile (fun c => c != '/')).reverse)

/-- Model of `os.path.join(a, b)` in the two-argument form used here. -/
def pyJoin (a b : String) : String :=
  if b.data.head? == some '/' then b
  else if a == "" then b
  else if a.data.getLast? == some '/' then a ++ b
  else a ++ "/" ++ b

/-- The EXR sample-type ids passed to `cv2.imwrite`
(`IMWRITE_EXR_TYPE_HALF` / `IMWRITE_EXR_TYPE_FLOAT`). -/
inductive ExrType where
  | half
  | float
deriving DecidableEq

/-- Save-parameter selection (step 6): when writing an `.exr`, the EXR sample
type is matched to the processed buffer's dtype; every other case passes no
parameters. -/
def exrSaveParams (outPath : String) (dt : Dtype) : Option ExrType :=
  if lowerEndsWithExr outPath then
    match dt with
    | .float32 => some .float
    | .float16 => some .half
    | _ => none
  else none

/-- The vector `D = np.array([k1, k2, p1, p2, k3, k4, 0, 0])` — the OpenCV
perspective coefficient order, padded with `k5 = k6 = 0`. -/
def distortionVector (p : Params) : List ℚ :=
  [p.k1, p.k2, p.p1, p.p2, p.k3, p.k4, 0, 0]

/-- The coefficients handed to the lens-model routines: `D_fish = D[:4]` on
the fisheye paths, the full `D` otherwise. -/
def lensCoeffs (fisheye : Bool) (p : Params) : List ℚ :=
  if fisheye then (distortionVector p).take 4 else distortionVector p

/-- The run direction: `--undistort` present selects Restore (remove
distortion); its absence selects Reverse (apply distortion). -/
inductive ProcessingDirection where
  | removeDistortion
  | applyDistortion
deriving DecidableEq

/-- Direction selection: `if not args.undistort:` reverse (distort), else
restore (undistort). -/
def directionOf (undistortFlag : Bool) : ProcessingDirection :=
  if undistortFlag then .removeDistortion else .applyDistortion

/-- Protocol-relevant effects of one run, in order: warnings, frame reads,
remap-table construction (with the lens model and coefficients handed to
the OpenCV routines), output-directory creation, `Error:` lines, frame
writes (output path, buffer dtype, EXR sample-type parameter), `Progress:`
percentages, and the terminal done signal. -/
inductive Event where
  | warn (msg : String)
  | readFrame (path : String)
  | buildMaps (dir : ProcessingDirection) (fisheye : Bool) (coeffs : List ℚ)
  | mkdirOut (dir : String)
  | errorLine (msg : String)
  | writeFrame (path : String) (dtype : Dtype) (exr : Option ExrType)
  | progress (q : ℚ)
  | doneLine
deriving DecidableEq

/-- The CLI arguments of the engine (`parse_args`); all five value flags are
required by argparse, `--undistort` is a `store_true` toggle defaulting to
false when absent. -/
structure Args where
  input_pattern : String
  output_dir : String
  start_frame : Int
  end_frame : Int
  undistort : Bool

/-- The count `total_frames = end_frame - start_frame + 1`. -/
def totalFrames (args : Args) : Int := args.end_frame - args.start_frame + 1

/-- The list `range(start_frame, end_frame + 1)`. -/
def frameRange (startF endF : Int) : List Int :=
  (List.range (endF - startF + 1).toNat).map (fun i => startF + (i : Int))

/-- The progress percentage after the frame with enumerate index `i`:
`(i + 1) / total_frames * 100`. -/
def progressPct (total : Int) (i : Nat) : ℚ := ((i : ℚ) + 1) / ((total : Int) : ℚ) * 100

/-- One iteration of the frame loop (step 6): resolve the path; a missing or
undecodable input records an `Error:` line and the loop continues; otherwise
the frame is decoded with extension-chosen flags, remapped (`cv2.remap`
keeps its input's element type; its geometry is OpenCV-internal), written to
the output directory under the input's filename with dtype-matched EXR
parameters, and a progress percentage is reported. -/
def processFrame (fs : String → FsEntry) (pattern outDir : String) (total : Int)
    (i : Nat) (frame : Int) : List Event :=
  let inputPath := resolve_filename pattern frame
  match fs inputPath with
  | .missing => [Event.errorLine ("Error: Input image not found at " ++ inputPath)]
  | .unreadable =>
    [Event.readFrame inputPath,
     Event.errorLine ("Error: Could not read image: " ++ inputPath)]
  | .image raw =>
    let img := decodeAs (readFlagsFor inputPath) raw
    let outPath := pyJoin outDir (basename inputPath)
    [Event.readFrame inputPath,
     Event.writeFrame outPath img.dtype (exrSaveParams outPath img.dtype),
     Event.progress (progressPct total i)]

/-- The frame loop: `for i, frame in enumerate(range(start, end + 1))`. -/
def runFrames (fs : String → FsEntry) (pattern outDir : String) (total : Int) :
    Nat → List Int → List Event
  | _, [] => []
  | i, f :: rest =>
    processFrame fs pattern outDir total i f ++ runFrames fs pattern outDir total (i + 1) rest

/-- Step 3 as a whole: probe the first frame of the range; warn and keep the
JSON parameters when it is absent or unreadable, rescale on a mismatch. -/
def reconcileStep (p0 : Params) (fs : String → FsEntry) (firstPath : String) :
    Params × List Event :=
  match fs firstPath with
  | .missing => (p0, [Event.warn "[WARN] First image not found. Proceeding with JSON defaults."])
  | .unreadable =>
    (p0, [Event.readFrame firstPath,
          Event.warn "[WARN] Could not read first image to verify resolution."])
  | .image raw =>
    let img := decodeAs (readFlagsFor firstPath) raw
    (reconcile p0 (img.w : Int) (img.h : Int),
     Event.readFrame firstPath ::
       (if (img.w : Int) ≠ p0.w ∨ (img.h : Int) ≠ p0.h
        then [Event.warn "[WARN] Resolution Mismatch Detected!"] else []))

/-- Final status of a run of `main` (past the JSON load). -/
inductive MainResult where
  | configError
  | crashed
  | completed
deriving DecidableEq

/-- Events of `main` after a successful parameter extraction: reconcile
against the first frame, build the remap table once, ensure the output
directory, run the frame loop, print the done signal. -/
def runOk (p0 : Params) (fs : String → FsEntry) (outDirExists : Bool) (args : Args) :
    List Event :=
  let firstPath := resolve_filename args.input_pattern args.start_frame
  let pr := reconcileStep p0 fs firstPath
  let fisheye := pyTruthy pr.1.is_fisheye
  pr.2
    ++ [Event.buildMaps (directionOf args.undistort) fisheye (lensCoeffs fisheye pr.1)]
    ++ (if outDirExists then [] else [Event.mkdirOut args.output_dir])
    ++ runFrames fs args.input_pattern args.output_dir (totalFrames args) 0
         (frameRange args.start_frame args.end_frame)
    ++ [Event.doneLine]

/-- Embedding of `main()` after the calibration document has been loaded:
the try-block's `except (KeyError, ValueError)` turns those two exceptions
into the fatal configuration error (printed message plus `sys.exit(1)`)
with no further effects; a `TypeError` from `float()` is NOT caught and
aborts with an unhandled traceback; otherwise the run proceeds. -/
def runMain (doc : Doc) (fs : String → FsEntry) (outDirExists : Bool) (args : Args) :
    MainResult × List Event :=
  match extractParams doc with
  | .error .keyError => (.configError, [])
  | .error .valueError => (.configError, [])
  | .error .typeError => (.crashed, [])
  | .ok p0 => (.completed, runOk p0 fs outDirExists args)

/-- The percentages carried by the `Progress:` events of a trace, in order. -/
def progressVals (tr : List Event) : List ℚ :=
  tr.filterMap (fun e => match e with | .progress q => some q | _ => none)

/-- Python `"{:.1f}"` on a nonnegative rational: one decimal digit, rounding
to nearest (ties modelled half-up; the engine's percentages never hit a
representable tie). -/
def fmt1 (q : ℚ) : String :=
  let n : Int := ⌊q * 10 + 1 / 2⌋
  intStr (n / 10) ++ "." ++ natStr (n % 10).toNat

/-- The `Progress:` lines of a trace, as printed. -/
def progressLines (tr : List Event) : List String :=
  tr.filterMap (fun e => match e with
    | .progress q => some ("Progress: " ++ fmt1 q ++ "%")
    | _ => none)

/-- Recognizer for `Error:` lines. -/
def isErrorLine : Event → Bool
  | .errorLine _ => true
  | _ => false

/-- Recognizer for frame-write events. -/
def isWriteEvent : Event → Bool
  | .writeFrame _ _ _ => true
  | _ => false

/-- Recognizer for progress events. -/
def isProgressEvent : Event → Bool
  | .progress _ => true
  | _ => false

/-- Whether the frame at `path` would be skipped with an `Error:` line. -/
def frameBad (fs : String → FsEntry) (path : String) : Bool :=
  match fs path with
  | .missing => true
  | .unreadable => true
  | .image _ => false

/-- A well-formed perspective calibration document (all numeric fields). -/
def doc4 : Doc :=
  [("fl_x", JsonVal.num 100), ("fl_y", JsonVal.num 100),
   ("cx", JsonVal.num 50), ("cy", JsonVal.num 50),
   ("w", JsonVal.num 100), ("h", JsonVal.num 100)]

/-- The parameters `extractParams` yields for `doc4`. -/
def p4 : Params :=
  { fl_x := 100, fl_y := 100, cx := 50, cy := 50, w := 100, h := 100,
    k1 := 0, k2 := 0, k3 := 0, k4 := 0, p1 := 0, p2 := 0,
    is_fisheye := JsonVal.bool false }

/-- A fisheye calibration with pairwise distinct `k3, k4, p1, p2`. -/
def doc1 : Doc :=
  [("fl_x", JsonVal.num 100), ("fl_y", JsonVal.num 100),
   ("cx", JsonVal.num 50), ("cy", JsonVal.num 50),
   ("w", JsonVal.num 100), ("h", JsonVal.num 100),
   ("k1", JsonVal.num (1 / 10)), ("k2", JsonVal.num (2 / 10)),
   ("k3", JsonVal.num (7 / 10)), ("k4", JsonVal.num (8 / 10)),
   ("p1", JsonVal.num (5 / 10)), ("p2", JsonVal.num (6 / 10)),
   ("is_fisheye", JsonVal.bool true)]

/-- The parameters `extractParams` yields for `doc1`. -/
def p1c : Params :=
  { fl_x := 100, fl_y := 100, cx := 50, cy := 50, w := 100, h := 100,
    k1 := 1 / 10, k2 := 2 / 10, k3 := 7 / 10, k4 := 8 / 10,
    p1 := 5 / 10, p2 := 6 / 10,
    is_fisheye := JsonVal.bool true }

/-- The document `doc4` with `is_fisheye` bound to the non-empty string
`"false"`. -/
def doc9 : Doc :=
  [("fl_x", JsonVal.num 100), ("fl_y", JsonVal.num 100),
   ("cx", JsonVal.num 50), ("cy", JsonVal.num 50),
   ("w", JsonVal.num 100), ("h", JsonVal.num 100),
   ("is_fisheye", JsonVal.str "false")]

/-- The parameters `extractParams` yields for `doc9`. -/
def p9 : Params :=
  { fl_x := 100, fl_y := 100, cx := 50, cy := 50, w := 100, h := 100,
    k1 := 0, k2 := 0, k3 := 0, k4 := 0, p1 := 0, p2 := 0,
    is_fisheye := JsonVal.str "false" }

/-- The document `doc4` with `cx` bound to JSON `null` — present but not
coercible to a number. -/
def doc6bad : Doc :=
  [("fl_x", JsonVal.num 100), ("fl_y", JsonVal.num 100),
   ("cx", JsonVal.null), ("cy", JsonVal.num 50),
   ("w", JsonVal.num 100), ("h", JsonVal.num 100)]

/-- The document `doc4` without its mandatory `cx` field. -/
def doc6missing : Doc :=
  [("fl_x", JsonVal.num 100), ("fl_y", JsonVal.num 100),
   ("cy", JsonVal.num 50),
   ("w", JsonVal.num 100), ("h", JsonVal.num 100)]

/-- A file system with no files at all. -/
def fsMissing : String → FsEntry := fun _ => FsEntry.missing

/-- A file system where every path decodes to a 100×100 8-bit image. -/
def fs4 : String → FsEntry := fun _ => FsEntry.image { h := 100, w := 100, dtype := Dtype.uint8 }

/-- A file system where frame 5 of the `img.####.exr` sequence is missing and
every other path decodes to a 100×100 8-bit image. -/
def fs7 : String → FsEntry := fun p =>
  if p == "img.0005.exr" then FsEntry.missing
  else FsEntry.image { h := 100, w := 100, dtype := Dtype.uint8 }

/-- A file system where every path decodes to a 100×100 half-float image. -/
def fs8 : String → FsEntry := fun _ => FsEntry.image { h := 100, w := 100, dtype := Dtype.float16 }

/-- A 4-frame run of the `img.####.exr` sequence, default direction. -/
def args4 : Args :=
  { input_pattern := "img.####.exr", output_dir := "out",
    start_frame := 1, end_frame := 4, undistort := false }

/-- A 10-frame run of the `img.####.exr` sequence, default direction. -/
def args10 : Args :=
  { input_pattern := "img.####.exr", output_dir := "out",
    start_frame := 1, end_frame := 10, undistort := false }

/-- An empty range: `start_frame = 1 > 0 = end_frame`. -/
def args1 : Args :=
  { input_pattern := "img.####.exr", output_dir := "out",
    start_frame := 1, end_frame := 0, undistort := false }

/-- A perspective calibration at `(w, h) = (100, 50)` for the reconciler example. -/
def p5ex : Params :=
  { fl_x := 3, fl_y := 5, cx := 7, cy := 11, w := 100, h := 50,
    k1 := 0, k2 := 0, k3 := 0, k4 := 0, p1 := 0, p2 := 0,
    is_fisheye := JsonVal.bool false }

/-! ### Helper lemmas -/

/-- Inversion for a successful `Except` bind. -/
theorem exBind_ok {α β : Type} {x : Except PyErr α} {f : α → Except PyErr β} {b : β}
    (h : x >>= f = Except.ok b) : ∃ a, x = Except.ok a ∧ f a = Except.ok b := by
  cases x with
  | error e => exact absurd h (by simp [Bind.bind, Except.bind])
  | ok a => exact ⟨a, rfl, by simpa [Bind.bind, Except.bind] using h⟩

/-- A successful extraction stores the raw `is_fisheye` JSON value
(`data.get('is_fisheye', False)`) without validation or coercion. -/
theorem extractParams_ok_is_fisheye {doc : Doc} {p : Params}
    (h : extractParams doc = Except.ok p) :
    p.is_fisheye = (jlookup doc "is_fisheye").getD (JsonVal.bool false) := by
  unfold extractParams at h
  obtain ⟨a1, -, h⟩ := exBind_ok h
  obtain ⟨a2, -, h⟩ := exBind_ok h
  obtain ⟨a3, -, h⟩ := exBind_ok h
  obtain ⟨a4, -, h⟩ := exBind_ok h
  obtain ⟨a5, -, h⟩ := exBind_ok h
  obtain ⟨a6, -, h⟩ := exBind_ok h
  obtain ⟨a7, -, h⟩ := exBind_ok h
  obtain ⟨a8, -, h⟩ := exBind_ok h
  obtain ⟨a9, -, h⟩ := exBind_ok h
  obtain ⟨a10, -, h⟩ := exBind_ok h
  obtain ⟨a11, -, h⟩ := exBind_ok h
  obtain ⟨a12, -, h⟩ := exBind_ok h
  simp only [Pure.pure, Except.pure, Except.ok.injEq] at h
  subst h
  rfl

/-- The remap table is built exactly once per run, with the direction chosen
from the `--undistort` toggle. -/
theorem buildMaps_mem_runOk (p0 : Params) (fs : String → FsEntry) (oDE : Bool) (args : Args) :
    Event.buildMaps (directionOf args.undistort)
        (pyTruthy (reconcileStep p0 fs
          (resolve_filename args.input_pattern args.start_frame)).1.is_fisheye)
        (lensCoeffs
          (pyTruthy (reconcileStep p0 fs
            (resolve_filename args.input_pattern args.start_frame)).1.is_fisheye)
          (reconcileStep p0 fs
            (resolve_filename args.input_pattern args.start_frame)).1)
      ∈ runOk p0 fs oDE args := by
  unfold runOk
  simp [List.mem_append]

/-! ### Claim theorems -/

/-- Claim C1 (code_bug evidence): on a fisheye calibration with pairwise
distinct `k3, k4, p1, p2`, the distortion vector is built in the OpenCV
perspective order `[k1, k2, p1, p2, k3, k4, 0, 0]`, and the slice `D[:4]`
handed to the `cv2.fisheye` routines is `[k1, k2, p1, p2]` — the tangential
coefficients in the radial slots — not the `[k1, k2, k3, k4]` the spec
(and OpenCV's fisheye model) require. -/
theorem c1_fisheye_receives_tangential_coeffs :
    extractParams doc1 = Except.ok p1c
    ∧ distortionVector p1c = [1/10, 2/10, 5/10, 6/10, 7/10, 8/10, 0, 0]
    ∧ lensCoeffs true p1c = [1/10, 2/10, 5/10, 6/10]
    ∧ Event.buildMaps (directionOf false) true [1/10, 2/10, 5/10, 6/10]
        ∈ (runMain doc1 fsMissing true args1).2
    ∧ ([1/10, 2/10, 5/10, 6/10] : List ℚ) ≠ [1/10, 2/10, 7/10, 8/10] := by
  refine ⟨rfl, rfl, rfl, by with_unfolding_all decide, by with_unfolding_all decide⟩

/-- Claim C2 (counterexample): with the toggle absent (`undistort = false`)
the run direction is Apply-Distortion, not the Remove-Distortion the claim
states as the default. -/
theorem c2_counterexample :
    directionOf false = ProcessingDirection.applyDistortion
    ∧ ProcessingDirection.applyDistortion ≠ ProcessingDirection.removeDistortion := by
  exact ⟨rfl, by decide⟩

/-- Claim C2 (amended): the CLI exposes a boolean toggle (`--undistort`)
selecting the run direction for the single remap-table build; when present
it selects Remove-Distortion, and when absent the run defaults to
Apply-Distortion. -/
theorem c2_direction_toggle (doc : Doc) (fs : String → FsEntry) (oDE : Bool) (args : Args)
    (p0 : Params) (h : extractParams doc = Except.ok p0) :
    (∃ fe co, Event.buildMaps (directionOf args.undistort) fe co
        ∈ (runMain doc fs oDE args).2)
    ∧ directionOf true = ProcessingDirection.removeDistortion
    ∧ directionOf false = ProcessingDirection.applyDistortion := by
  refine ⟨?_, rfl, rfl⟩
  unfold runMain
  rw [h]
  exact ⟨_, _, buildMaps_mem_runOk p0 fs oDE args⟩

/-- Witness for C2's amended theorem at a concrete valid document. -/
theorem c2_direction_toggle_witness :
    extractParams doc4 = Except.ok p4
    ∧ ((∃ fe co, Event.buildMaps (directionOf args4.undistort) fe co
          ∈ (runMain doc4 fs4 true args4).2)
       ∧ directionOf true = ProcessingDirection.removeDistortion
       ∧ directionOf false = ProcessingDirection.applyDistortion) :=
  ⟨rfl, c2_direction_toggle doc4 fs4 true args4 p4 rfl⟩

/-- Claim C5: on a first-frame resolution mismatch the reconciler scales
`fl_x, cx` by `realW / w`, scales `fl_y, cy` by `realH / h`, and replaces
`(w, h)` by the actual dimensions. -/
theorem c5_reconcile_scales_intrinsics (p : Params) (realW realH : Int)
    (_hw : 0 < p.w) (_hh : 0 < p.h) (hne : realW ≠ p.w ∨ realH ≠ p.h) :
    reconcile p realW realH
      = { p with fl_x := p.fl_x * ((realW : ℚ) / (p.w : ℚ)),
                 fl_y := p.fl_y * ((realH : ℚ) / (p.h : ℚ)),
                 cx := p.cx * ((realW : ℚ) / (p.w : ℚ)),
                 cy := p.cy * ((realH : ℚ) / (p.h : ℚ)),
                 w := realW, h := realH } := by
  unfold reconcile
  rw [if_pos hne]

/-- Witness for C5 at the spec's own example: calibration `(w=100, h=50)`
against an actual first frame of `(200, 100)` gives scale factors exactly
`(2, 2)`, doubles `fl_x, cx, fl_y, cy`, and sets `(w, h) = (200, 100)`. -/
theorem c5_reconcile_scales_intrinsics_witness :
    (0 : Int) < p5ex.w ∧ (0 : Int) < p5ex.h ∧ ((200 : Int) ≠ p5ex.w ∨ (100 : Int) ≠ p5ex.h)
    ∧ reconcile p5ex 200 100
        = { p5ex with fl_x := p5ex.fl_x * ((200 : ℚ) / (p5ex.w : ℚ)),
                      fl_y := p5ex.fl_y * ((100 : ℚ) / (p5ex.h : ℚ)),
                      cx := p5ex.cx * ((200 : ℚ) / (p5ex.w : ℚ)),
                      cy := p5ex.cy * ((100 : ℚ) / (p5ex.h : ℚ)),
                      w := 200, h := 100 }
    ∧ ((200 : ℚ) / (p5ex.w : ℚ) = 2 ∧ (100 : ℚ) / (p5ex.h : ℚ) = 2)
    ∧ (reconcile p5ex 200 100).fl_x = 6 ∧ (reconcile p5ex 200 100).cx = 14
    ∧ (reconcile p5ex 200 100).fl_y = 10 ∧ (reconcile p5ex 200 100).cy = 22
    ∧ (reconcile p5ex 200 100).w = 200 ∧ (reconcile p5ex 200 100).h = 100 :=
  ⟨by decide, by decide, by with_unfolding_all decide,
   c5_reconcile_scales_intrinsics p5ex 200 100 (by decide) (by decide)
     (by with_unfolding_all decide),
   by with_unfolding_all decide, by with_unfolding_all decide, by with_unfolding_all decide,
   by with_unfolding_all decide, by with_unfolding_all decide, by with_unfolding_all decide,
   by with_unfolding_all decide⟩

/-- Claim C6 (counterexample): with `cx` present but bound to JSON `null`
— a field that cannot be coerced to a number — `float(None)` raises
`TypeError`, which `except (KeyError, ValueError)` does not catch: the run
aborts with an unhandled traceback, not the ConfigurationError path. -/
theorem c6_counterexample :
    extractParams doc6bad = Except.error PyErr.typeError
    ∧ (runMain doc6bad fsMissing true args1).1 = MainResult.crashed
    ∧ MainResult.crashed ≠ MainResult.configError :=
  ⟨rfl, rfl, by decide⟩

/-- Claim C6 (amended): when extraction raises `KeyError` (missing mandatory
field) or `ValueError` (a string field that does not parse as a number),
the engine exits through the fatal ConfigurationError path with an empty
effect trace: no remap table is built, no output directory is created, and
no frame is read. -/
theorem c6_config_error_aborts_before_io (doc : Doc) (fs : String → FsEntry) (oDE : Bool)
    (args : Args) (e : PyErr) (h : extractParams doc = Except.error e)
    (he : e = PyErr.keyError ∨ e = PyErr.valueError) :
    runMain doc fs oDE args = (MainResult.configError, ([] : List Event)) := by
  unfold runMain
  rw [h]
  rcases he with rfl | rfl <;> rfl

/-- Witness for C6's amended theorem: a document missing `cx` fails with
`KeyError` and produces the ConfigurationError exit with no effects. -/
theorem c6_config_error_aborts_before_io_witness :
    extractParams doc6missing = Except.error PyErr.keyError
    ∧ runMain doc6missing fsMissing true args1 = (MainResult.configError, ([] : List Event)) :=
  ⟨rfl, c6_config_error_aborts_before_io doc6missing fsMissing true args1 PyErr.keyError rfl
    (Or.inl rfl)⟩

/-- Decimal digit characters are digits. -/
theorem digitChar_isDigit {d : Nat} (h : d < 10) : (digitChar d).isDigit = true := by
  interval_cases d <;> decide

/-- Length bound for the fuelled digit conversion. -/
theorem natDigitsAux_length_le :
    ∀ (fuel n k : Nat) (acc : List Char), n < fuel → n < 10 ^ k → 1 ≤ k →
      (natDigitsAux fuel n acc).length ≤ k + acc.length := by
  intro fuel
  induction fuel with
  | zero => intro n k acc hf; omega
  | succ f ih =>
    intro n k acc hf hk h1
    unfold natDigitsAux
    split
    · simp
      omega
    · rename_i hn10
      have hk2 : 2 ≤ k := by
        by_contra hc
        push_neg at hc
        have hk1 : k = 1 := by omega
        subst hk1
        rw [pow_one] at hk
        omega
      have hdiv : n / 10 < 10 ^ (k - 1) := by
        rw [Nat.div_lt_iff_lt_mul (by norm_num)]
        have hpow : (10 : Nat) ^ (k - 1) * 10 = 10 ^ k := by
          rw [← pow_succ]
          congr 1
          omega
        omega
      have hrec := ih (n / 10) (k - 1) (digitChar (n % 10) :: acc) (by omega) hdiv (by omega)
      simp at hrec ⊢
      omega

/-- Every character the fuelled digit conversion emits is a digit. -/
theorem natDigitsAux_all_digit :
    ∀ (fuel n : Nat) (acc : List Char), n < fuel → (∀ c ∈ acc, c.isDigit = true) →
      ∀ c ∈ natDigitsAux fuel n acc, c.isDigit = true := by
  intro fuel
  induction fuel with
  | zero => intro n acc hf; omega
  | succ f ih =>
    intro n acc hf hacc
    unfold natDigitsAux
    split
    · rename_i hn
      intro c hc
      rcases List.mem_cons.mp hc with rfl | hc
      · exact digitChar_isDigit hn
      · exact hacc c hc
    · rename_i hn
      apply ih
      · omega
      · intro c hc
        rcases List.mem_cons.mp hc with rfl | hc
        · exact digitChar_isDigit (Nat.mod_lt _ (by norm_num))
        · exact hacc c hc

/-- The list `natDigits n` has at most `k` digits when `n < 10 ^ k`. -/
theorem natDigits_length_le {n k : Nat} (hk : n < 10 ^ k) (h1 : 1 ≤ k) :
    (natDigits n).length ≤ k := by
  simpa using natDigitsAux_length_le (n + 1) n k [] (by omega) hk h1

/-- The list `natDigits n` consists of digit characters. -/
theorem natDigits_all_digit {n : Nat} : ∀ c ∈ natDigits n, c.isDigit = true :=
  natDigitsAux_all_digit (n + 1) n [] (by omega) (by simp)

/-- Zero-padding to width `k` yields exactly `k` characters when `n < 10 ^ k`. -/
theorem padNat_length {width n : Nat} (hn : n < 10 ^ width) (h1 : 1 ≤ width) :
    (padNat width n).length = width := by
  have := natDigits_length_le hn h1
  simp [padNat]
  omega

/-- Zero-padded renderings consist of digit characters. -/
theorem padNat_all_digit {width n : Nat} : ∀ c ∈ padNat width n, c.isDigit = true := by
  intro c hc
  rcases List.mem_append.mp hc with hc | hc
  · rw [List.eq_of_mem_replicate hc]
    decide
  · exact natDigits_all_digit c hc

/-- A found hash run starts with a hash mark (so is nonempty). -/
theorem firstHashRun_shape : ∀ (l r : List Char),
    firstHashRun l = some r → ∃ t, r = '#' :: t := by
  intro l
  induction l with
  | nil => intro r h; simp [firstHashRun] at h
  | cons c cs ih =>
    intro r h
    unfold firstHashRun at h
    split at h
    · injection h with h
      exact ⟨_, h.symm⟩
    · exact ih r h

/-- Zero-padding of a nonnegative frame number goes through `padNat`. -/
theorem padInt_nonneg {width : Nat} {f : Int} (h0 : 0 ≤ f) :
    padInt width f = padNat width f.toNat := by
  unfold padInt
  rw [if_neg (by omega)]

/-- Claim C3 (amended): when the pattern contains hash marks, the resolver
substitutes EVERY left-to-right occurrence of the first maximal run's text
(Python `str.replace` replaces all occurrences) with the frame number
zero-padded to the run's length; the padded text consists of digits and,
for frames that fit, has exactly the run's length. -/
theorem c3_resolve_hash_padded (pattern : String) (frame : Int) (run : List Char)
    (hrun : firstHashRun pattern.data = some run)
    (h0 : 0 ≤ frame) (hlt : frame < (10 : Int) ^ run.length) :
    resolve_filename pattern frame
      = String.mk (pyReplace run (padInt run.length frame) pattern.data)
    ∧ (padInt run.length frame).length = run.length
    ∧ ∀ c ∈ padInt run.length frame, c.isDigit = true := by
  obtain ⟨t, rfl⟩ := firstHashRun_shape pattern.data run hrun
  have hw : 1 ≤ ('#' :: t).length := by simp
  have hnat : frame.toNat < 10 ^ ('#' :: t).length := by
    have h1 : ((frame.toNat : Int)) < (10 : Int) ^ ('#' :: t).length := by
      rw [Int.toNat_of_nonneg h0]
      exact hlt
    exact_mod_cast h1
  refine ⟨?_, ?_, ?_⟩
  · unfold resolve_filename
    rw [hrun]
  · rw [padInt_nonneg h0]
    exact padNat_length hnat hw
  · rw [padInt_nonneg h0]
    exact padNat_all_digit

/-- Claim C3 (counterexample): on pattern `##.##` with frame 123 the code
substitutes BOTH runs (and does not truncate to the run's width), yielding
`123.123`, while the claim's reading — only the first run replaced — would
yield `123.##`. -/
theorem c3_counterexample :
    resolve_filename "##.##" 123 = "123.123"
    ∧ specResolveHash "##.##" 123 = "123.##"
    ∧ ("123.123" : String) ≠ "123.##" :=
  ⟨rfl, rfl, by decide⟩

/-- Witness for C3's amended theorem: `shot.####.exr` with frame 7 resolves
through the replace-all path to `shot.0007.exr`, a 4-digit zero-pad. -/
theorem c3_resolve_hash_padded_witness :
    firstHashRun "shot.####.exr".data = some ['#', '#', '#', '#']
    ∧ (0 : Int) ≤ 7 ∧ (7 : Int) < (10 : Int) ^ (['#', '#', '#', '#'] : List Char).length
    ∧ (resolve_filename "shot.####.exr" 7
         = String.mk (pyReplace ['#', '#', '#', '#']
             (padInt (['#', '#', '#', '#'] : List Char).length 7) "shot.####.exr".data)
       ∧ (padInt (['#', '#', '#', '#'] : List Char).length 7).length
           = (['#', '#', '#', '#'] : List Char).length
       ∧ ∀ c ∈ padInt (['#', '#', '#', '#'] : List Char).length 7, c.isDigit = true)
    ∧ resolve_filename "shot.####.exr" 7 = "shot.0007.exr" :=
  ⟨rfl, by decide, by decide,
   c3_resolve_hash_padded "shot.####.exr" 7 ['#', '#', '#', '#'] rfl (by decide) (by decide),
   rfl⟩

/-- Successive progress percentages strictly increase when the total is
positive. -/
theorem progressPct_lt (total : Int) (htot : 0 < total) (i : Nat) :
    progressPct total i < progressPct total (i + 1) := by
  unfold progressPct
  have hT : (0 : ℚ) < ((total : Int) : ℚ) := by exact_mod_cast htot
  have h100T : (0 : ℚ) < 100 / ((total : Int) : ℚ) := by positivity
  calc ((i : ℚ) + 1) / ((total : Int) : ℚ) * 100
      = ((i : ℚ) + 1) * (100 / ((total : Int) : ℚ)) := by ring
    _ < ((i : ℚ) + 1 + 1) * (100 / ((total : Int) : ℚ)) := by
        apply mul_lt_mul_of_pos_right _ h100T
        linarith
    _ = (((i + 1 : Nat) : ℚ) + 1) / ((total : Int) : ℚ) * 100 := by
        push_cast
        ring

/-- The map `progressVals` distributes over concatenation. -/
theorem progressVals_append (a b : List Event) :
    progressVals (a ++ b) = progressVals a ++ progressVals b := by
  simp [progressVals]

/-- One loop iteration contributes no progress value (skipped frame) or
exactly its own percentage (completed frame). -/
theorem progressVals_processFrame (fs : String → FsEntry) (pattern outDir : String)
    (total : Int) (i : Nat) (frame : Int) :
    progressVals (processFrame fs pattern outDir total i frame) = []
    ∨ progressVals (processFrame fs pattern outDir total i frame) = [progressPct total i] := by
  cases h : fs (resolve_filename pattern frame) <;>
    simp [processFrame, h, progressVals]

/-- The loop's progress percentages are strictly increasing, and bounded
below by the percentage of the current enumerate index. -/
theorem runFrames_progress_chain (fs : String → FsEntry) (pattern outDir : String)
    (total : Int) (htot : 0 < total) :
    ∀ (frames : List Int) (i : Nat),
      List.Chain' (· < ·) (progressVals (runFrames fs pattern outDir total i frames))
      ∧ ∀ q ∈ progressVals (runFrames fs pattern outDir total i frames),
          progressPct total i ≤ q := by
  intro frames
  induction frames with
  | nil =>
    intro i
    constructor
    · simp [runFrames, progressVals]
    · simp [runFrames, progressVals]
  | cons f rest ih =>
    intro i
    obtain ⟨ihc, ihb⟩ := ih (i + 1)
    have hstep := progressPct_lt total htot i
    have hsplit : progressVals (runFrames fs pattern outDir total i (f :: rest))
        = progressVals (processFrame fs pattern outDir total i f)
          ++ progressVals (runFrames fs pattern outDir total (i + 1) rest) := by
      rw [runFrames, progressVals_append]
    rcases progressVals_processFrame fs pattern outDir total i f with hpf | hpf
    · rw [hsplit, hpf, List.nil_append]
      exact ⟨ihc, fun q hq => le_trans (le_of_lt hstep) (ihb q hq)⟩
    · rw [hsplit, hpf, List.singleton_append]
      constructor
      · rw [List.chain'_cons']
        refine ⟨fun b hb => ?_, ihc⟩
        exact lt_of_lt_of_le hstep (ihb b (List.mem_of_mem_head? hb))
      · intro q hq
        rcases List.mem_cons.mp hq with rfl | hq
        · exact le_refl _
        · exact le_trans (le_of_lt hstep) (ihb q hq)

/-- The reconcile step emits no progress values. -/
theorem progressVals_reconcileStep (p0 : Params) (fs : String → FsEntry) (fp : String) :
    progressVals (reconcileStep p0 fs fp).2 = [] := by
  cases h : fs fp with
  | missing => simp [reconcileStep, h, progressVals]
  | unreadable => simp [reconcileStep, h, progressVals]
  | image raw =>
    simp only [reconcileStep, h]
    split <;> simp [progressVals]

/-- All progress of a successful run comes from the frame loop. -/
theorem progressVals_runOk (p0 : Params) (fs : String → FsEntry) (oDE : Bool) (args : Args) :
    progressVals (runOk p0 fs oDE args)
      = progressVals (runFrames fs args.input_pattern args.output_dir (totalFrames args) 0
          (frameRange args.start_frame args.end_frame)) := by
  simp only [runOk]
  rw [progressVals_append, progressVals_append, progressVals_append, progressVals_append,
    progressVals_reconcileStep]
  cases oDE <;> simp [progressVals]

/-- Claim C4: after each completed frame the engine emits
`(framesDone / totalFrames) * 100`, strictly increasing across the run; on
a 4-frame all-successful run the printed progress lines are exactly
`25.0, 50.0, 75.0, 100.0`. -/
theorem c4_progress_monotone :
    (∀ (doc : Doc) (fs : String → FsEntry) (oDE : Bool) (args : Args) (p0 : Params),
        extractParams doc = Except.ok p0 → 0 < totalFrames args →
        List.Chain' (· < ·) (progressVals (runMain doc fs oDE args).2))
    ∧ progressLines (runMain doc4 fs4 true args4).2
        = ["Progress: 25.0%", "Progress: 50.0%", "Progress: 75.0%", "Progress: 100.0%"] := by
  constructor
  · intro doc fs oDE args p0 h htot
    unfold runMain
    rw [h]
    show List.Chain' (· < ·) (progressVals (runOk p0 fs oDE args))
    rw [progressVals_runOk]
    exact (runFrames_progress_chain fs args.input_pattern args.output_dir (totalFrames args)
      htot (frameRange args.start_frame args.end_frame) 0).1
  · with_unfolding_all rfl

/-- Witness for C4's universal part at the 4-frame run. -/
theorem c4_progress_monotone_witness :
    extractParams doc4 = Except.ok p4 ∧ (0 : Int) < totalFrames args4
    ∧ List.Chain' (· < ·) (progressVals (runMain doc4 fs4 true args4).2) :=
  ⟨rfl, by decide, c4_progress_monotone.1 doc4 fs4 true args4 p4 rfl (by decide)⟩

/-- Per-frame event counts: a skipped frame yields exactly one `Error:` line
and no write; a completed frame yields exactly one write and no `Error:`
line. -/
theorem processFrame_counts (fs : String → FsEntry) (pattern outDir : String)
    (total : Int) (i : Nat) (frame : Int) :
    (processFrame fs pattern outDir total i frame).countP isErrorLine
        = (if frameBad fs (resolve_filename pattern frame) then 1 else 0)
    ∧ (processFrame fs pattern outDir total i frame).countP isWriteEvent
        = (if frameBad fs (resolve_filename pattern frame) then 0 else 1) := by
  cases h : fs (resolve_filename pattern frame) <;>
    simp [processFrame, h, frameBad, List.countP_cons, isErrorLine, isWriteEvent]

/-- Loop-level counts: one `Error:` line per bad frame and one write per good
frame, so a bad frame is skipped without aborting the loop. -/
theorem runFrames_counts (fs : String → FsEntry) (pattern outDir : String) (total : Int) :
    ∀ (frames : List Int) (i : Nat),
      (runFrames fs pattern outDir total i frames).countP isErrorLine
          = frames.countP (fun f => frameBad fs (resolve_filename pattern f))
      ∧ (runFrames fs pattern outDir total i frames).countP isWriteEvent
          = frames.countP (fun f => !frameBad fs (resolve_filename pattern f)) := by
  intro frames
  induction frames with
  | nil => intro i; simp [runFrames]
  | cons f rest ih =>
    intro i
    obtain ⟨ih1, ih2⟩ := ih (i + 1)
    obtain ⟨h1, h2⟩ := processFrame_counts fs pattern outDir total i f
    constructor
    · rw [runFrames, List.countP_append, h1, ih1, List.countP_cons]
      cases hb : frameBad fs (resolve_filename pattern f) <;> simp [hb]
      omega
    · rw [runFrames, List.countP_append, h2, ih2, List.countP_cons]
      cases hb : frameBad fs (resolve_filename pattern f) <;> simp [hb]
      omega

/-- Claim C7: for every frame range, the loop records exactly one `Error:`
line per missing/undecodable frame and one write per processed frame, so a
single bad frame never aborts the batch; concretely, a 10-frame run with
one missing frame still writes the other 9 frames and emits exactly one
`Error:` line. -/
theorem c7_bad_frame_never_aborts :
    (∀ (fs : String → FsEntry) (pattern outDir : String) (total : Int)
        (frames : List Int) (i : Nat),
        (runFrames fs pattern outDir total i frames).countP isErrorLine
            = frames.countP (fun f => frameBad fs (resolve_filename pattern f))
        ∧ (runFrames fs pattern outDir total i frames).countP isWriteEvent
            = frames.countP (fun f => !frameBad fs (resolve_filename pattern f)))
    ∧ (runMain doc4 fs7 true args10).2.countP isWriteEvent = 9
    ∧ (runMain doc4 fs7 true args10).2.countP isErrorLine = 1 := by
  refine ⟨fun fs pattern outDir total frames i =>
    runFrames_counts fs pattern outDir total frames i, ?_, ?_⟩
  · with_unfolding_all rfl
  · with_unfolding_all rfl

/-- Integer sample formats never receive an EXR sample-type parameter. -/
theorem exrSaveParams_int_none (pth : String) (dt : Dtype)
    (h : dt = Dtype.uint8 ∨ dt = Dtype.uint16) : exrSaveParams pth dt = none := by
  rcases h with rfl | rfl <;> unfold exrSaveParams <;> split <;> rfl

/-- Claim C8: every write of the frame loop targets
`outputDir/<basename of the input path>`, carries the decoded buffer's
sample format unchanged (the decode flags are chosen from the extension,
and `cv2.remap` preserves the element type), and its EXR sample-type
parameter is chosen from that format — full float for float32, half float
for float16, and no float reinterpretation (no parameter) for integer
formats. -/
theorem c8_write_precision :
    ∀ (fs : String → FsEntry) (pattern outDir : String) (total : Int)
      (frames : List Int) (i : Nat) (pth : String) (dt : Dtype) (prm : Option ExrType),
      Event.writeFrame pth dt prm ∈ runFrames fs pattern outDir total i frames →
      ∃ f ∈ frames, ∃ img,
        fs (resolve_filename pattern f) = FsEntry.image img
        ∧ pth = pyJoin outDir (basename (resolve_filename pattern f))
        ∧ dt = (decodeAs (readFlagsFor (resolve_filename pattern f)) img).dtype
        ∧ prm = exrSaveParams pth dt
        ∧ ((dt = Dtype.uint8 ∨ dt = Dtype.uint16) → prm = none) := by
  intro fs pattern outDir total frames
  induction frames with
  | nil => intro i pth dt prm h; simp [runFrames] at h
  | cons f rest ih =>
    intro i pth dt prm h
    rw [runFrames] at h
    rcases List.mem_append.mp h with h | h
    · cases hfs : fs (resolve_filename pattern f) with
      | missing => simp [processFrame, hfs] at h
      | unreadable => simp [processFrame, hfs] at h
      | image raw =>
        simp only [processFrame, hfs, List.mem_cons, List.mem_singleton] at h
        rcases h with h | h | h
        · exact absurd h (by simp)
        · obtain ⟨hp, hd, hx⟩ := Event.writeFrame.inj h
          refine ⟨f, List.mem_cons_self f rest, raw, hfs, hp, hd, ?_, ?_⟩
          · rw [hx, hp, hd]
          · intro hint
            rw [hx]
            apply exrSaveParams_int_none
            rw [← hd]
            exact hint
        · exact absurd h (by simp)
    · obtain ⟨g, hg, rest_h⟩ := ih (i + 1) pth dt prm h
      exact ⟨g, List.mem_cons_of_mem f hg, rest_h⟩

/-- Witness for C8 at a single-frame run over half-float EXR data. -/
theorem c8_write_precision_witness :
    Event.writeFrame "out/img.03.exr" Dtype.float16 (some ExrType.half)
        ∈ runFrames fs8 "img.##.exr" "out" 1 0 [3]
    ∧ ∃ f ∈ ([3] : List Int), ∃ img,
        fs8 (resolve_filename "img.##.exr" f) = FsEntry.image img
        ∧ "out/img.03.exr" = pyJoin "out" (basename (resolve_filename "img.##.exr" f))
        ∧ Dtype.float16 = (decodeAs (readFlagsFor (resolve_filename "img.##.exr" f)) img).dtype
        ∧ (some ExrType.half) = exrSaveParams "out/img.03.exr" Dtype.float16
        ∧ ((Dtype.float16 = Dtype.uint8 ∨ Dtype.float16 = Dtype.uint16)
            → (some ExrType.half : Option ExrType) = none) :=
  ⟨by with_unfolding_all decide,
   c8_write_precision fs8 "img.##.exr" "out" 1 [3] 0 "out/img.03.exr" Dtype.float16
     (some ExrType.half) (by with_unfolding_all decide)⟩

/-- Claim C9: the lens model is selected by applying Python truthiness to the
raw `is_fisheye` JSON value — with no boolean validation or coercion — so
any truthy value (including the non-empty string `"false"`) selects the
fisheye model, and only a missing key or a falsy value selects the
perspective model. -/
theorem c9_is_fisheye_truthiness :
    (∀ (doc : Doc) (p : Params), extractParams doc = Except.ok p →
        (pyTruthy p.is_fisheye = true
          ↔ ∃ v, jlookup doc "is_fisheye" = some v ∧ pyTruthy v = true))
    ∧ pyTruthy (JsonVal.str "false") = true
    ∧ pyTruthy (JsonVal.bool false) = false
    ∧ Event.buildMaps (directionOf false) true (lensCoeffs true p9)
        ∈ (runMain doc9 fsMissing true args1).2 := by
  refine ⟨?_, rfl, rfl, by with_unfolding_all decide⟩
  intro doc p h
  rw [extractParams_ok_is_fisheye h]
  cases hv : jlookup doc "is_fisheye" with
  | none => simp [pyTruthy]
  | some v => simp

/-- Witness for C9's universal part: `doc9` binds `is_fisheye` to the string
`"false"`, which is truthy, so the fisheye model is selected. -/
theorem c9_is_fisheye_truthiness_witness :
    extractParams doc9 = Except.ok p9
    ∧ (pyTruthy p9.is_fisheye = true
        ↔ ∃ v, jlookup doc9 "is_fisheye" = some v ∧ pyTruthy v = true) :=
  ⟨rfl, c9_is_fisheye_truthiness.1 doc9 p9 rfl⟩

/-- Every event of the reconcile step is a warning or the first-frame read. -/
theorem reconcileStep_events (p0 : Params) (fs : String → FsEntry) (fp : String) :
    ∀ e ∈ (reconcileStep p0 fs fp).2, (∃ m, e = Event.warn m) ∨ e = Event.readFrame fp := by
  cases h : fs fp with
  | missing => simp [reconcileStep, h]
  | unreadable => simp [reconcileStep, h]
  | image raw =>
    simp only [reconcileStep, h]
    split <;> simp

/-- The reconcile step contributes nothing to a count of events that ignores
warnings and reads. -/
theorem reconcileStep_countP (p0 : Params) (fs : String → FsEntry) (fp : String)
    (pr : Event → Bool) (hw : ∀ m, pr (Event.warn m) = false)
    (hr : pr (Event.readFrame fp) = false) :
    (reconcileStep p0 fs fp).2.countP pr = 0 := by
  rw [List.countP_eq_zero]
  intro e he
  rcases reconcileStep_events p0 fs fp e he with ⟨m, rfl⟩ | rfl
  · simp [hw]
  · simp [hr]

/-- Claim C10: when `start_frame > end_frame` the frame range is empty, so
the run emits no `Progress:` and no `Error:` line, never evaluates the
per-frame division, and still ends with the terminal done signal. -/
theorem c10_empty_range (doc : Doc) (fs : String → FsEntry) (oDE : Bool) (args : Args)
    (p0 : Params) (h : extractParams doc = Except.ok p0)
    (hr : args.end_frame < args.start_frame) :
    frameRange args.start_frame args.end_frame = []
    ∧ (runMain doc fs oDE args).2.countP isProgressEvent = 0
    ∧ (runMain doc fs oDE args).2.countP isErrorLine = 0
    ∧ (runMain doc fs oDE args).2.getLast? = some Event.doneLine := by
  have hfr : frameRange args.start_frame args.end_frame = [] := by
    unfold frameRange
    rw [Int.toNat_of_nonpos (by omega)]
    rfl
  have hrec1 := reconcileStep_countP p0 fs
    (resolve_filename args.input_pattern args.start_frame) isProgressEvent
    (fun m => rfl) rfl
  have hrec2 := reconcileStep_countP p0 fs
    (resolve_filename args.input_pattern args.start_frame) isErrorLine
    (fun m => rfl) rfl
  refine ⟨hfr, ?_, ?_, ?_⟩
  · unfold runMain
    rw [h]
    show (runOk p0 fs oDE args).countP isProgressEvent = 0
    simp only [runOk, hfr]
    cases oDE <;>
      simp [List.countP_append, runFrames, hrec1, isProgressEvent, List.countP_cons]
  · unfold runMain
    rw [h]
    show (runOk p0 fs oDE args).countP isErrorLine = 0
    simp only [runOk, hfr]
    cases oDE <;>
      simp [List.countP_append, runFrames, hrec2, isErrorLine, List.countP_cons]
  · unfold runMain
    rw [h]
    show (runOk p0 fs oDE args).getLast? = some Event.doneLine
    simp only [runOk]
    rw [List.getLast?_append]
    rfl

/-- Witness for C10 at the concrete empty range `start = 1 > 0 = end`. -/
theorem c10_empty_range_witness :
    extractParams doc4 = Except.ok p4 ∧ args1.end_frame < args1.start_frame
    ∧ (frameRange args1.start_frame args1.end_frame = []
       ∧ (runMain doc4 fsMissing true args1).2.countP isProgressEvent = 0
       ∧ (runMain doc4 fsMissing true args1).2.countP isErrorLine = 0
       ∧ (runMain doc4 fsMissing true args1).2.getLast? = some Event.doneLine) :=
  ⟨rfl, by decide, c10_empty_range doc4 fsMissing true args1 p4 rfl (by decide)⟩
